import Mathlib

/-!
# pypostal `_dedupe` binding (src/postal/pydedupe.c)

A shallow embedding of the C extension module that exposes libpostal's
duplicate classification to Python, and theorems about what the binding
does with its arguments before, and instead of, calling libpostal.

What the binding calls but does not define is taken as a parameter, gathered
in `Env`: the marshalling helpers of `pyutils.h`, the libpostal functions and
the constants of `libpostal.h`.  Every theorem quantified over `Env` holds for
any behaviour of those.  The CPython calls the binding makes on its arguments
(`PySequence_Check`, `PySequence_Length`, argument parsing) are modelled on a
small universe of Python objects.
-/

set_option autoImplicit false

namespace PyDedupe

/-! ## Python side -/

/-- Python objects that reach the binding as arguments or leave it as results. -/
inductive PyObj where
  | none
  | int (n : Int)
  | str (s : String)
  | list (items : List PyObj)
  | tuple (items : List PyObj)

/-- CPython `PySequence_Check`: strings, lists and tuples provide the sequence
protocol, `None` and integers do not. -/
def PySequence_Check : PyObj → Bool
  | PyObj.str _ => true
  | PyObj.list _ => true
  | PyObj.tuple _ => true
  | PyObj.none => false
  | PyObj.int _ => false

/-- CPython `PySequence_Length`: the number of items, and -1 for an object
without a length. -/
def PySequence_Length : PyObj → Int
  | PyObj.str s => (s.length : Int)
  | PyObj.list items => (items.length : Int)
  | PyObj.tuple items => (items.length : Int)
  | PyObj.none => -1
  | PyObj.int _ => -1

/-- The exception a `PyErr_SetString` of the binding sets. -/
inductive PyErr where
  | TypeError (msg : String)
  deriving DecidableEq, Repr

/-- CPython `PyArg_ParseTuple(args, "OO:dedupe", &a, &b)`: exactly two
positional arguments, handed over as they are. -/
def PyArg_ParseTuple (args : List PyObj) : Option (PyObj × PyObj) :=
  match args with
  | [a, b] => some (a, b)
  | _ => none

/-- CPython `PyArg_ParseTupleAndKeywords` for a format of `required` objects,
a bar and further optional objects (`"OO|O"`, `"OOOO|O"`).  The result has one
slot per name of `kwlist`: the positional arguments first, the rest looked up
by keyword; an optional slot that was not given is `none` and the C variable
behind it keeps its initial value.  Parsing fails on too many arguments, on a
keyword outside `kwlist`, on an argument given both ways and on a missing
required argument. -/
def PyArg_ParseTupleAndKeywords (args : List PyObj) (keywords : List (String × PyObj))
    (required : Nat) (kwlist : List String) : Option (List (Option PyObj)) :=
  if args.length + keywords.length > kwlist.length then none
  else if keywords.any (fun kv => !kwlist.contains kv.1) then none
  else if (kwlist.take args.length).any (fun k => (keywords.lookup k).isSome) then none
  else
    let slots := args.map some ++ (kwlist.drop args.length).map (fun k => keywords.lookup k)
    if (slots.take required).all Option.isSome then some slots else none

/-! ## libpostal side -/

/-- The struct `libpostal_duplicate_options_t`.  The binding reads and writes
`num_languages` and `languages` only; the declaration is in `libpostal.h`, and
whatever else it holds is carried along as `others`. -/
structure libpostal_duplicate_options_t where
  num_languages : Nat
  languages : Option (List String)
  others : Nat
  deriving DecidableEq, Repr

/-- The values a `duplicate_function` pointer takes in the binding: the seven
field comparators of libpostal. -/
inductive duplicate_function where
  | libpostal_is_name_duplicate
  | libpostal_is_street_duplicate
  | libpostal_is_house_number_duplicate
  | libpostal_is_po_box_duplicate
  | libpostal_is_unit_duplicate
  | libpostal_is_floor_duplicate
  | libpostal_is_postal_code_duplicate
  deriving DecidableEq, Repr

/-- A `char **` with its element count: `none` is the NULL pointer. -/
abbrev StringArray := Option (List String)

/-- The count a `PyObject_to_strings` call leaves in `*num_strings`: the
length of the array it hands back, and the 0 the caller initialised the
variable with when it hands back NULL. -/
def num_strings (a : StringArray) : Nat :=
  match a with
  | some xs => xs.length
  | none => 0

/-- A call into libpostal, with the arguments passed. -/
inductive LibCall where
  | duplicate (f : duplicate_function) (value1 value2 : String)
      (options : libpostal_duplicate_options_t)
  | toponym (num_components1 : Nat) (labels1 values1 : StringArray)
      (num_components2 : Nat) (labels2 values2 : StringArray)
      (options : libpostal_duplicate_options_t)
  | place_languages (num_components : Nat) (labels values : StringArray)
  deriving DecidableEq, Repr

/-- The options a libpostal call was given, for the calls that take options. -/
def LibCall.options : LibCall → Option libpostal_duplicate_options_t
  | LibCall.duplicate _ _ _ o => some o
  | LibCall.toponym _ _ _ _ _ _ o => some o
  | LibCall.place_languages _ _ _ => none

/-- Everything the binding uses and does not define. -/
structure Env where
  /-- `pyutils.h`: a Python string as a C string, NULL on failure. -/
  PyObject_to_string : PyObj → Option String
  /-- `pyutils.h`: a Python sequence as a string array, NULL on failure. -/
  PyObject_to_strings : PyObj → StringArray
  /-- `pyutils.h`: the same with a bound on the length of each string. -/
  PyObject_to_strings_max_len : PyObj → Nat → StringArray
  /-- `pyutils.h`: a string array as a Python object, NULL on failure. -/
  PyObject_from_strings : List String → Option PyObj
  LIBPOSTAL_MAX_LANGUAGE_LEN : Nat
  LIBPOSTAL_NULL_DUPLICATE_STATUS : Int
  LIBPOSTAL_NON_DUPLICATE : Int
  LIBPOSTAL_POSSIBLE_DUPLICATE_NEEDS_REVIEW : Int
  LIBPOSTAL_LIKELY_DUPLICATE : Int
  LIBPOSTAL_EXACT_DUPLICATE : Int
  libpostal_get_default_duplicate_options : libpostal_duplicate_options_t
  /-- The seven field comparators, by the function called. -/
  field_duplicate : duplicate_function → String → String → libpostal_duplicate_options_t → Int
  libpostal_is_toponym_duplicate : Nat → StringArray → StringArray → Nat → StringArray →
    StringArray → libpostal_duplicate_options_t → Int
  libpostal_place_languages : Nat → StringArray → StringArray → StringArray
  /-- Success of `libpostal_setup()`. -/
  libpostal_setup : Bool
  /-- Success of `libpostal_setup_language_classifier()`. -/
  libpostal_setup_language_classifier : Bool
  /-- Whether `PyModule_Create(&module_def)` hands back a module. -/
  PyModule_Create_ok : Bool
  /-- Whether `PyErr_NewException("_dedupe.Error", NULL, NULL)` hands back an exception. -/
  PyErr_NewException_ok : Bool

/-! ## The binding -/

/-- One run of an entry point: the libpostal calls it made, in order, the
exception it set itself with `PyErr_SetString`, and the object it returned
(`none` for a NULL return). -/
structure Run where
  calls : List LibCall
  raised : Option PyErr
  result : Option PyObj

/-- A bare `return 0;` or `return NULL;`: no libpostal call made. -/
def Run.null : Run := ⟨[], none, none⟩

/-- A `PyErr_SetString(PyExc_TypeError, msg); return 0;`. -/
def Run.type_error (msg : String) : Run := ⟨[], some (PyErr.TypeError msg), none⟩

/-- Source lines 23-66. -/
def py_place_languages (E : Env) (args : List PyObj) : Run :=
  match PyArg_ParseTuple args with
  | none => Run.null
  | some (arg_labels, arg_values) =>
    let labels := E.PyObject_to_strings arg_labels
    let num_labels := num_strings labels
    if labels.isNone then Run.null
    else
      let values := E.PyObject_to_strings arg_values
      if values.isNone then Run.null
      else
        let num_components := num_labels
        let languages := E.libpostal_place_languages num_components labels values
        let result :=
          match languages with
          | some langs => E.PyObject_from_strings langs
          | none => some PyObj.none
        ⟨[LibCall.place_languages num_components labels values], none, result⟩

/-- Source lines 73-138. -/
def py_is_duplicate (E : Env) (args : List PyObj) (keywords : List (String × PyObj))
    (dupe_func : duplicate_function) : Run :=
  let options := E.libpostal_get_default_duplicate_options
  match PyArg_ParseTupleAndKeywords args keywords 2 ["value1", "value2", "languages"] with
  | some [some arg_value1, some arg_value2, given_languages] =>
    let arg_languages := given_languages.getD PyObj.none
    match E.PyObject_to_string arg_value1 with
    | none => Run.null
    | some value1 =>
      match E.PyObject_to_string arg_value2 with
      | none => Run.null
      | some value2 =>
        let languages : StringArray :=
          if PySequence_Check arg_languages then
            E.PyObject_to_strings_max_len arg_languages E.LIBPOSTAL_MAX_LANGUAGE_LEN
          else none
        let num_languages := num_strings languages
        let options :=
          if num_languages > 0 ∧ languages.isSome then
            { options with num_languages := num_languages, languages := languages }
          else options
        let status := E.field_duplicate dupe_func value1 value2 options
        ⟨[LibCall.duplicate dupe_func value1 value2 options], none, some (PyObj.int status)⟩
  | _ => Run.null

/-- Source lines 141-143. -/
def py_is_name_duplicate (E : Env) (args : List PyObj) (keywords : List (String × PyObj)) : Run :=
  py_is_duplicate E args keywords duplicate_function.libpostal_is_name_duplicate

/-- Source lines 145-147. -/
def py_is_street_duplicate (E : Env) (args : List PyObj) (keywords : List (String × PyObj)) : Run :=
  py_is_duplicate E args keywords duplicate_function.libpostal_is_street_duplicate

/-- Source lines 149-151. -/
def py_is_house_number_duplicate (E : Env) (args : List PyObj)
    (keywords : List (String × PyObj)) : Run :=
  py_is_duplicate E args keywords duplicate_function.libpostal_is_house_number_duplicate

/-- Source lines 153-155. -/
def py_is_po_box_duplicate (E : Env) (args : List PyObj) (keywords : List (String × PyObj)) : Run :=
  py_is_duplicate E args keywords duplicate_function.libpostal_is_po_box_duplicate

/-- Source lines 157-159. -/
def py_is_unit_duplicate (E : Env) (args : List PyObj) (keywords : List (String × PyObj)) : Run :=
  py_is_duplicate E args keywords duplicate_function.libpostal_is_unit_duplicate

/-- Source lines 161-163. -/
def py_is_floor_duplicate (E : Env) (args : List PyObj) (keywords : List (String × PyObj)) : Run :=
  py_is_duplicate E args keywords duplicate_function.libpostal_is_floor_duplicate

/-- Source lines 165-167. -/
def py_is_postal_code_duplicate (E : Env) (args : List PyObj)
    (keywords : List (String × PyObj)) : Run :=
  py_is_duplicate E args keywords duplicate_function.libpostal_is_postal_code_duplicate

/-- Source lines 169-275.  The test after the conversion of `arg_labels2`
(line 233) is on `labels1`, as in the source. -/
def py_is_toponym_duplicate (E : Env) (args : List PyObj)
    (keywords : List (String × PyObj)) : Run :=
  let options := E.libpostal_get_default_duplicate_options
  match PyArg_ParseTupleAndKeywords args keywords 4
      ["labels1", "values1", "labels2", "values2", "languages"] with
  | some [some arg_labels1, some arg_values1, some arg_labels2, some arg_values2,
      given_languages] =>
    let arg_languages := given_languages.getD PyObj.none
    if !PySequence_Check arg_labels1 || !PySequence_Check arg_values1
        || !PySequence_Check arg_labels2 || !PySequence_Check arg_values2 then
      Run.type_error "Input labels and values must be sequences"
    else if PySequence_Length arg_labels1 ≠ PySequence_Length arg_values1 then
      Run.type_error "Input labels1 and values1 arrays must be of equal length"
    else if PySequence_Length arg_labels2 ≠ PySequence_Length arg_values2 then
      Run.type_error "Input labels2 and values2 arrays must be of equal length"
    else
      let labels1 := E.PyObject_to_strings arg_labels1
      let num_labels1 := num_strings labels1
      if labels1.isNone then Run.null
      else
        let values1 := E.PyObject_to_strings arg_values1
        if values1.isNone then Run.null
        else
          let num_components1 := num_labels1
          let labels2 := E.PyObject_to_strings arg_labels2
          let num_labels2 := num_strings labels2
          if labels1.isNone then Run.null
          else
            let values2 := E.PyObject_to_strings arg_values2
            if values2.isNone then Run.null
            else
              let num_components2 := num_labels2
              let languages : StringArray :=
                if PySequence_Check arg_languages then
                  E.PyObject_to_strings_max_len arg_languages E.LIBPOSTAL_MAX_LANGUAGE_LEN
                else none
              let num_languages := num_strings languages
              let options :=
                if num_languages > 0 ∧ languages.isSome then
                  { options with num_languages := num_languages, languages := languages }
                else options
              let status := E.libpostal_is_toponym_duplicate num_components1 labels1 values1
                num_components2 labels2 values2 options
              ⟨[LibCall.toponym num_components1 labels1 values1 num_components2 labels2 values2
                  options], none, some (PyObj.int status)⟩
  | _ => Run.null

/-- The C function behind a method, with its calling convention:
`METH_VARARGS` or `METH_VARARGS | METH_KEYWORDS`. -/
inductive PyCFunction where
  | varargs (f : Env → List PyObj → Run)
  | varargs_keywords (f : Env → List PyObj → List (String × PyObj) → Run)

/-- A row of the method table. -/
structure PyMethodDef where
  ml_name : String
  ml_meth : PyCFunction
  ml_doc : String

/-- Source lines 278-289. -/
def dedupe_methods : List PyMethodDef :=
  [ ⟨"place_languages", PyCFunction.varargs py_place_languages,
      "place_languages(labels, values)"⟩,
    ⟨"is_name_duplicate", PyCFunction.varargs_keywords py_is_name_duplicate,
      "is_name_duplicate(value1, value2, languages=None)"⟩,
    ⟨"is_street_duplicate", PyCFunction.varargs_keywords py_is_street_duplicate,
      "is_street_duplicate(value1, value2, **kw)"⟩,
    ⟨"is_house_number_duplicate", PyCFunction.varargs_keywords py_is_house_number_duplicate,
      "is_house_number_duplicate(value1, value2, languages=None)"⟩,
    ⟨"is_po_box_duplicate", PyCFunction.varargs_keywords py_is_po_box_duplicate,
      "is_po_box_duplicate(value1, value2,languages=None)"⟩,
    ⟨"is_unit_duplicate", PyCFunction.varargs_keywords py_is_unit_duplicate,
      "is_unit_duplicate(value1, value2, languages=None)"⟩,
    ⟨"is_floor_duplicate", PyCFunction.varargs_keywords py_is_floor_duplicate,
      "is_floor_duplicate(value1, value2, languages=None)"⟩,
    ⟨"is_postal_code_duplicate", PyCFunction.varargs_keywords py_is_postal_code_duplicate,
      "is_postal_code_duplicate(value1, value2, languages=None)"⟩,
    ⟨"is_toponym_duplicate", PyCFunction.varargs_keywords py_is_toponym_duplicate,
      "is_toponym_duplicate(labels1, values1, labels2, values2, languages=None)"⟩ ]

/-- A call of the module function `name` from Python: the interpreter finds
the row of the method table and calls its C function; a `METH_VARARGS`
function called with keyword arguments is refused before it runs.  `none`
when the module has no such function. -/
def call_function (E : Env) (name : String) (args : List PyObj)
    (keywords : List (String × PyObj)) : Option Run :=
  match dedupe_methods.find? (fun m => m.ml_name == name) with
  | none => none
  | some m =>
    match m.ml_meth with
    | PyCFunction.varargs f => if keywords.isEmpty then some (f E args) else some Run.null
    | PyCFunction.varargs_keywords f => some (f E args keywords)

/-- The module object: its method table and the integer constants added to it. -/
structure Module where
  methods : List PyMethodDef
  constants : List (String × Int)

/-- One run of the module initialisation: the exception it set itself and the
module it returned (`none` for `INITERROR`). -/
structure InitRun where
  raised : Option PyErr
  module : Option Module

/-- Source lines 321-373, the Python 3 build (`IS_PY3K`). -/
def PyInit__dedupe (E : Env) : InitRun :=
  if !E.PyModule_Create_ok then ⟨none, none⟩
  else if !E.PyErr_NewException_ok then ⟨none, none⟩
  else
    let raised :=
      if !E.libpostal_setup || !E.libpostal_setup_language_classifier then
        some (PyErr.TypeError "Error loading libpostal")
      else none
    ⟨raised, some ⟨dedupe_methods,
      [ ("NULL_DUPLICATE_STATUS", E.LIBPOSTAL_NULL_DUPLICATE_STATUS),
        ("NON_DUPLICATE", E.LIBPOSTAL_NON_DUPLICATE),
        ("POSSIBLE_DUPLICATE_NEEDS_REVIEW", E.LIBPOSTAL_POSSIBLE_DUPLICATE_NEEDS_REVIEW),
        ("LIKELY_DUPLICATE", E.LIBPOSTAL_LIKELY_DUPLICATE),
        ("EXACT_DUPLICATE", E.LIBPOSTAL_EXACT_DUPLICATE) ]⟩⟩

/-! ## A concrete environment

Stand-ins for the helpers and for libpostal, on which the entry points can be
evaluated: strings convert to themselves, a list or tuple converts when all
its items are strings, the comparators know equal strings from different
ones, and the language classifier knows one place. -/

/-- A Python string as a C string; NULL for any other object. -/
def demo_to_string : PyObj → Option String
  | PyObj.str s => some s
  | _ => none

/-- The strings of a list of Python strings; NULL when an item is not a string. -/
def demo_items_to_strings : List PyObj → StringArray
  | [] => some []
  | PyObj.str s :: rest => (demo_items_to_strings rest).map (fun xs => s :: xs)
  | _ :: _ => none

/-- A list or tuple as a string array; NULL for any other object. -/
def demo_to_strings : PyObj → StringArray
  | PyObj.list items => demo_items_to_strings items
  | PyObj.tuple items => demo_items_to_strings items
  | _ => none

/-- The same, NULL also when a string reaches `max_len`. -/
def demo_to_strings_max_len (o : PyObj) (max_len : Nat) : StringArray :=
  (demo_to_strings o).filter (fun xs => xs.all (fun s => s.length < max_len))

/-- The options the stand-in for `libpostal_get_default_duplicate_options` gives. -/
def demo_options : libpostal_duplicate_options_t := ⟨0, none, 0⟩

/-- The concrete environment. -/
def demo_env : Env where
  PyObject_to_string := demo_to_string
  PyObject_to_strings := demo_to_strings
  PyObject_to_strings_max_len := demo_to_strings_max_len
  PyObject_from_strings := fun xs => some (PyObj.list (xs.map PyObj.str))
  LIBPOSTAL_MAX_LANGUAGE_LEN := 4
  LIBPOSTAL_NULL_DUPLICATE_STATUS := 0
  LIBPOSTAL_NON_DUPLICATE := 1
  LIBPOSTAL_POSSIBLE_DUPLICATE_NEEDS_REVIEW := 2
  LIBPOSTAL_LIKELY_DUPLICATE := 3
  LIBPOSTAL_EXACT_DUPLICATE := 4
  libpostal_get_default_duplicate_options := demo_options
  field_duplicate := fun _ value1 value2 _ => if value1 = value2 then 4 else 1
  libpostal_is_toponym_duplicate := fun _ _ values1 _ _ values2 _ =>
    if values1 = values2 then 4 else 1
  libpostal_place_languages := fun _ _ values =>
    if values = some ["Paris"] then some ["fr"] else none
  libpostal_setup := true
  libpostal_setup_language_classifier := true
  PyModule_Create_ok := true
  PyErr_NewException_ok := true

/-- The seven field entry points of the module, each with the comparator of
its field type. -/
def field_entry_points : List (String × duplicate_function) :=
  [ ("is_name_duplicate", duplicate_function.libpostal_is_name_duplicate),
    ("is_street_duplicate", duplicate_function.libpostal_is_street_duplicate),
    ("is_house_number_duplicate", duplicate_function.libpostal_is_house_number_duplicate),
    ("is_po_box_duplicate", duplicate_function.libpostal_is_po_box_duplicate),
    ("is_unit_duplicate", duplicate_function.libpostal_is_unit_duplicate),
    ("is_floor_duplicate", duplicate_function.libpostal_is_floor_duplicate),
    ("is_postal_code_duplicate", duplicate_function.libpostal_is_postal_code_duplicate) ]

/-! ## Theorems -/

/-- C1: when the four arguments of `is_toponym_duplicate` are parsed and one of
them is not a sequence, or the lengths of `labels1` and `values1` differ, or
those of `labels2` and `values2` differ, the call returns NULL with a
`TypeError` set and makes no libpostal call. -/
theorem toponym_rejects_malformed_components (E : Env) (args : List PyObj)
    (keywords : List (String × PyObj)) (labels1 values1 labels2 values2 : PyObj)
    (languages : Option PyObj)
    (hparse : PyArg_ParseTupleAndKeywords args keywords 4
      ["labels1", "values1", "labels2", "values2", "languages"]
      = some [some labels1, some values1, some labels2, some values2, languages])
    (hbad : (PySequence_Check labels1 = false ∨ PySequence_Check values1 = false
        ∨ PySequence_Check labels2 = false ∨ PySequence_Check values2 = false)
      ∨ PySequence_Length labels1 ≠ PySequence_Length values1
      ∨ PySequence_Length labels2 ≠ PySequence_Length values2) :
    (py_is_toponym_duplicate E args keywords).result = none
      ∧ (∃ msg, (py_is_toponym_duplicate E args keywords).raised = some (PyErr.TypeError msg))
      ∧ (py_is_toponym_duplicate E args keywords).calls = [] := by
  simp only [py_is_toponym_duplicate, hparse]
  by_cases hseq : (!PySequence_Check labels1 || !PySequence_Check values1
        || !PySequence_Check labels2 || !PySequence_Check values2) = true
  · simp [hseq, Run.type_error]
  · by_cases h1 : PySequence_Length labels1 ≠ PySequence_Length values1
    · simp [hseq, h1, Run.type_error]
    · by_cases h2 : PySequence_Length labels2 ≠ PySequence_Length values2
      · simp [hseq, h1, h2, Run.type_error]
      · exfalso
        rcases hbad with h | h | h
        · apply hseq
          rcases h with h | h | h | h <;> simp [h]
        · exact h1 h
        · exact h2 h

/-- C1, at a concrete call: two labels against one value on the first side. -/
theorem toponym_rejects_malformed_components_witness :
    (py_is_toponym_duplicate demo_env
        [PyObj.list [PyObj.str "road", PyObj.str "city"], PyObj.list [PyObj.str "Main St"],
         PyObj.list [PyObj.str "city"], PyObj.list [PyObj.str "Paris"]] []).result = none
      ∧ (∃ msg, (py_is_toponym_duplicate demo_env
        [PyObj.list [PyObj.str "road", PyObj.str "city"], PyObj.list [PyObj.str "Main St"],
         PyObj.list [PyObj.str "city"], PyObj.list [PyObj.str "Paris"]] []).raised
          = some (PyErr.TypeError msg))
      ∧ (py_is_toponym_duplicate demo_env
        [PyObj.list [PyObj.str "road", PyObj.str "city"], PyObj.list [PyObj.str "Main St"],
         PyObj.list [PyObj.str "city"], PyObj.list [PyObj.str "Paris"]] []).calls = [] :=
  toponym_rejects_malformed_components demo_env _ [] _ _ _ _ none (by rfl)
    (Or.inr (Or.inl (by decide)))

/-- A successful run of `py_is_duplicate` parsed its arguments, converted both
values, called the comparator it was given once and returned its status. -/
theorem py_is_duplicate_of_result (E : Env) (args : List PyObj)
    (keywords : List (String × PyObj)) (f : duplicate_function) (obj : PyObj)
    (hres : (py_is_duplicate E args keywords f).result = some obj) :
    ∃ arg_value1 arg_value2 languages value1 value2 options,
      PyArg_ParseTupleAndKeywords args keywords 2 ["value1", "value2", "languages"]
          = some [some arg_value1, some arg_value2, languages]
        ∧ E.PyObject_to_string arg_value1 = some value1
        ∧ E.PyObject_to_string arg_value2 = some value2
        ∧ (py_is_duplicate E args keywords f).calls = [LibCall.duplicate f value1 value2 options]
        ∧ obj = PyObj.int (E.field_duplicate f value1 value2 options) := by
  unfold py_is_duplicate at hres
  split at hres
  · rename_i a1 a2 lang hparse
    cases h1 : E.PyObject_to_string a1 with
    | none => simp [h1, Run.null] at hres
    | some v1 =>
      cases h2 : E.PyObject_to_string a2 with
      | none => simp [h1, h2, Run.null] at hres
      | some v2 =>
        simp only [h1, h2, Option.some.injEq] at hres
        refine ⟨a1, a2, lang, v1, v2, _, hparse, h1, h2, ?_, hres.symm⟩
        simp only [py_is_duplicate, hparse, h1, h2]
  · simp [Run.null] at hres

/-- The method table sends each field entry point to `py_is_duplicate` with
the comparator of its own field type. -/
theorem call_function_field_entry (E : Env) (name : String) (f : duplicate_function)
    (hmem : (name, f) ∈ field_entry_points) (args : List PyObj)
    (keywords : List (String × PyObj)) :
    call_function E name args keywords = some (py_is_duplicate E args keywords f) := by
  simp only [field_entry_points, List.mem_cons, Prod.mk.injEq, List.mem_singleton,
    List.not_mem_nil, or_false] at hmem
  rcases hmem with h | h | h | h | h | h | h <;> obtain ⟨rfl, rfl⟩ := h <;>
    simp [call_function, dedupe_methods, List.find?, py_is_name_duplicate,
      py_is_street_duplicate, py_is_house_number_duplicate, py_is_po_box_duplicate,
      py_is_unit_duplicate, py_is_floor_duplicate, py_is_postal_code_duplicate]

/-- C2: for each of the seven field entry points, a call whose arguments parse
and whose two values convert calls the comparator of that field type once, on
the converted `value1` and `value2` in that order, and returns its status as a
Python integer; and every call that returns an object is such a call. -/
theorem field_entry_returns_comparator_status (E : Env) (name : String)
    (f : duplicate_function) (hmem : (name, f) ∈ field_entry_points) (args : List PyObj)
    (keywords : List (String × PyObj)) :
    (∀ arg_value1 arg_value2 languages value1 value2,
      PyArg_ParseTupleAndKeywords args keywords 2 ["value1", "value2", "languages"]
          = some [some arg_value1, some arg_value2, languages] →
      E.PyObject_to_string arg_value1 = some value1 →
      E.PyObject_to_string arg_value2 = some value2 →
      ∃ options, call_function E name args keywords
        = some ⟨[LibCall.duplicate f value1 value2 options], none,
            some (PyObj.int (E.field_duplicate f value1 value2 options))⟩)
    ∧ (∀ run obj, call_function E name args keywords = some run → run.result = some obj →
      ∃ arg_value1 arg_value2 languages value1 value2 options,
        PyArg_ParseTupleAndKeywords args keywords 2 ["value1", "value2", "languages"]
            = some [some arg_value1, some arg_value2, languages]
          ∧ E.PyObject_to_string arg_value1 = some value1
          ∧ E.PyObject_to_string arg_value2 = some value2
          ∧ run.calls = [LibCall.duplicate f value1 value2 options]
          ∧ obj = PyObj.int (E.field_duplicate f value1 value2 options)) := by
  have hcall := call_function_field_entry E name f hmem args keywords
  refine ⟨?_, ?_⟩
  · intro a1 a2 lang v1 v2 hparse h1 h2
    rw [hcall]
    simp only [py_is_duplicate, hparse, h1, h2]
    exact ⟨_, rfl⟩
  · intro run obj hrun hres
    rw [hcall] at hrun
    simp only [Option.some.injEq] at hrun
    subst hrun
    exact py_is_duplicate_of_result E args keywords f obj hres

/-- C2, at a concrete call: `is_street_duplicate("Main St", "Elm St")` calls the
street comparator on the two strings in that order. -/
theorem field_entry_returns_comparator_status_witness :
    ∃ options, call_function demo_env "is_street_duplicate"
        [PyObj.str "Main St", PyObj.str "Elm St"] []
      = some ⟨[LibCall.duplicate duplicate_function.libpostal_is_street_duplicate
            "Main St" "Elm St" options], none,
          some (PyObj.int (demo_env.field_duplicate
            duplicate_function.libpostal_is_street_duplicate "Main St" "Elm St" options))⟩ :=
  (field_entry_returns_comparator_status demo_env "is_street_duplicate"
    duplicate_function.libpostal_is_street_duplicate (by simp [field_entry_points])
    [PyObj.str "Main St", PyObj.str "Elm St"] []).1
    (PyObj.str "Main St") (PyObj.str "Elm St") none "Main St" "Elm St" (by rfl) rfl rfl

/-- The update of lines 116-119 and 256-259, on any default `d` and any
converted language array: the other fields stay, a non-empty array is stored
with its length, and with no string converted nothing changes. -/
theorem language_update_frame (d : libpostal_duplicate_options_t) (languages : StringArray) :
    (if num_strings languages > 0 ∧ languages.isSome then
        { d with num_languages := num_strings languages, languages := languages }
      else d).others = d.others
    ∧ (∀ L, languages = some L → L ≠ [] →
        (if num_strings languages > 0 ∧ languages.isSome then
          { d with num_languages := num_strings languages, languages := languages }
        else d) = { d with num_languages := L.length, languages := some L })
    ∧ (num_strings languages = 0 →
        (if num_strings languages > 0 ∧ languages.isSome then
          { d with num_languages := num_strings languages, languages := languages }
        else d) = d) := by
  refine ⟨?_, ?_, ?_⟩
  · split <;> rfl
  · intro L hL hne
    subst hL
    have : 0 < L.length := List.length_pos.mpr hne
    simp [num_strings, this]
  · intro h0
    simp [h0]

/-- The options of the one libpostal call a run of `py_is_duplicate` can make. -/
theorem py_is_duplicate_call_options (E : Env) (args : List PyObj)
    (keywords : List (String × PyObj)) (f : duplicate_function)
    (arg_value1 arg_value2 : PyObj) (given : Option PyObj) (c : LibCall)
    (o : libpostal_duplicate_options_t)
    (hparse : PyArg_ParseTupleAndKeywords args keywords 2 ["value1", "value2", "languages"]
      = some [some arg_value1, some arg_value2, given])
    (hc : c ∈ (py_is_duplicate E args keywords f).calls) (ho : c.options = some o) :
    o = (if num_strings (if PySequence_Check (given.getD PyObj.none) then
            E.PyObject_to_strings_max_len (given.getD PyObj.none) E.LIBPOSTAL_MAX_LANGUAGE_LEN
          else none) > 0
          ∧ (if PySequence_Check (given.getD PyObj.none) then
            E.PyObject_to_strings_max_len (given.getD PyObj.none) E.LIBPOSTAL_MAX_LANGUAGE_LEN
          else none).isSome then
        { E.libpostal_get_default_duplicate_options with
          num_languages := num_strings (if PySequence_Check (given.getD PyObj.none) then
            E.PyObject_to_strings_max_len (given.getD PyObj.none) E.LIBPOSTAL_MAX_LANGUAGE_LEN
          else none),
          languages := (if PySequence_Check (given.getD PyObj.none) then
            E.PyObject_to_strings_max_len (given.getD PyObj.none) E.LIBPOSTAL_MAX_LANGUAGE_LEN
          else none) }
      else E.libpostal_get_default_duplicate_options) := by
  simp only [py_is_duplicate, hparse] at hc
  cases h1 : E.PyObject_to_string arg_value1 with
  | none => simp [h1, Run.null] at hc
  | some v1 =>
    cases h2 : E.PyObject_to_string arg_value2 with
    | none => simp [h1, h2, Run.null] at hc
    | some v2 =>
      simp only [h1, h2, List.mem_singleton] at hc
      subst hc
      simp only [LibCall.options, Option.some.injEq] at ho
      exact ho.symm

/-- The options of the one libpostal call a run of `py_is_toponym_duplicate`
can make. -/
theorem py_is_toponym_duplicate_call_options (E : Env) (args : List PyObj)
    (keywords : List (String × PyObj))
    (arg_labels1 arg_values1 arg_labels2 arg_values2 : PyObj) (given : Option PyObj)
    (c : LibCall) (o : libpostal_duplicate_options_t)
    (hparse : PyArg_ParseTupleAndKeywords args keywords 4
      ["labels1", "values1", "labels2", "values2", "languages"]
      = some [some arg_labels1, some arg_values1, some arg_labels2, some arg_values2, given])
    (hc : c ∈ (py_is_toponym_duplicate E args keywords).calls) (ho : c.options = some o) :
    o = (if num_strings (if PySequence_Check (given.getD PyObj.none) then
            E.PyObject_to_strings_max_len (given.getD PyObj.none) E.LIBPOSTAL_MAX_LANGUAGE_LEN
          else none) > 0
          ∧ (if PySequence_Check (given.getD PyObj.none) then
            E.PyObject_to_strings_max_len (given.getD PyObj.none) E.LIBPOSTAL_MAX_LANGUAGE_LEN
          else none).isSome then
        { E.libpostal_get_default_duplicate_options with
          num_languages := num_strings (if PySequence_Check (given.getD PyObj.none) then
            E.PyObject_to_strings_max_len (given.getD PyObj.none) E.LIBPOSTAL_MAX_LANGUAGE_LEN
          else none),
          languages := (if PySequence_Check (given.getD PyObj.none) then
            E.PyObject_to_strings_max_len (given.getD PyObj.none) E.LIBPOSTAL_MAX_LANGUAGE_LEN
          else none) }
      else E.libpostal_get_default_duplicate_options) := by
  simp only [py_is_toponym_duplicate, hparse] at hc
  split at hc
  · simp [Run.type_error] at hc
  · split at hc
    · simp [Run.type_error] at hc
    · split at hc
      · simp [Run.type_error] at hc
      · split at hc
        · simp [Run.null] at hc
        · split at hc
          · simp [Run.null] at hc
          · split at hc
            · simp [Run.null] at hc
            · simp only [List.mem_singleton] at hc
              subst hc
              simp only [LibCall.options, Option.some.injEq] at ho
              exact ho.symm

/-- C3: in a run of a field entry point or of `is_toponym_duplicate`, the
options of every libpostal call are the default options except for the
language fields: the other fields are the default ones; when the `languages`
argument is a sequence that converts to a non-empty array `L`, `languages` is
`L` and `num_languages` its length; when `languages` is omitted, `None` or not
a sequence, and when no string was converted, the options are the default
options; the last holds for an empty sequence as soon as the conversion helper
gives as many strings as the sequence has items. -/
theorem options_default_except_languages (E : Env) (args : List PyObj)
    (keywords : List (String × PyObj)) (run : Run) (given : Option PyObj) (c : LibCall)
    (o : libpostal_duplicate_options_t)
    (hrun : (∃ f arg_value1 arg_value2,
          PyArg_ParseTupleAndKeywords args keywords 2 ["value1", "value2", "languages"]
            = some [some arg_value1, some arg_value2, given]
          ∧ run = py_is_duplicate E args keywords f)
      ∨ (∃ arg_labels1 arg_values1 arg_labels2 arg_values2,
          PyArg_ParseTupleAndKeywords args keywords 4
            ["labels1", "values1", "labels2", "values2", "languages"]
            = some [some arg_labels1, some arg_values1, some arg_labels2, some arg_values2, given]
          ∧ run = py_is_toponym_duplicate E args keywords))
    (hc : c ∈ run.calls) (ho : c.options = some o) :
    o.others = E.libpostal_get_default_duplicate_options.others
    ∧ (∀ L, PySequence_Check (given.getD PyObj.none) = true →
        E.PyObject_to_strings_max_len (given.getD PyObj.none) E.LIBPOSTAL_MAX_LANGUAGE_LEN
          = some L →
        L ≠ [] →
        o = { E.libpostal_get_default_duplicate_options with
              num_languages := L.length, languages := some L })
    ∧ ((given = none ∨ given = some PyObj.none
          ∨ PySequence_Check (given.getD PyObj.none) = false) →
        o = E.libpostal_get_default_duplicate_options)
    ∧ (num_strings (E.PyObject_to_strings_max_len (given.getD PyObj.none)
          E.LIBPOSTAL_MAX_LANGUAGE_LEN) = 0 →
        o = E.libpostal_get_default_duplicate_options)
    ∧ ((∀ obj L, E.PyObject_to_strings_max_len obj E.LIBPOSTAL_MAX_LANGUAGE_LEN = some L →
          (L.length : Int) = PySequence_Length obj) →
        PySequence_Length (given.getD PyObj.none) = 0 →
        o = E.libpostal_get_default_duplicate_options) := by
  have hdef : o = (if num_strings (if PySequence_Check (given.getD PyObj.none) then
            E.PyObject_to_strings_max_len (given.getD PyObj.none) E.LIBPOSTAL_MAX_LANGUAGE_LEN
          else none) > 0
          ∧ (if PySequence_Check (given.getD PyObj.none) then
            E.PyObject_to_strings_max_len (given.getD PyObj.none) E.LIBPOSTAL_MAX_LANGUAGE_LEN
          else none).isSome then
        { E.libpostal_get_default_duplicate_options with
          num_languages := num_strings (if PySequence_Check (given.getD PyObj.none) then
            E.PyObject_to_strings_max_len (given.getD PyObj.none) E.LIBPOSTAL_MAX_LANGUAGE_LEN
          else none),
          languages := (if PySequence_Check (given.getD PyObj.none) then
            E.PyObject_to_strings_max_len (given.getD PyObj.none) E.LIBPOSTAL_MAX_LANGUAGE_LEN
          else none) }
      else E.libpostal_get_default_duplicate_options) := by
    rcases hrun with ⟨f, a1, a2, hparse, rfl⟩ | ⟨l1, v1, l2, v2, hparse, rfl⟩
    · exact py_is_duplicate_call_options E args keywords f a1 a2 given c o hparse hc ho
    · exact py_is_toponym_duplicate_call_options E args keywords l1 v1 l2 v2 given c o hparse hc ho
  have hframe := language_update_frame E.libpostal_get_default_duplicate_options
    (if PySequence_Check (given.getD PyObj.none) then
      E.PyObject_to_strings_max_len (given.getD PyObj.none) E.LIBPOSTAL_MAX_LANGUAGE_LEN
    else none)
  rw [← hdef] at hframe
  obtain ⟨hothers, hsome, hzero⟩ := hframe
  have hnoseq : PySequence_Check (given.getD PyObj.none) = false →
      o = E.libpostal_get_default_duplicate_options := by
    intro h
    apply hzero
    simp [h, num_strings]
  have hnone : num_strings (E.PyObject_to_strings_max_len (given.getD PyObj.none)
      E.LIBPOSTAL_MAX_LANGUAGE_LEN) = 0 → o = E.libpostal_get_default_duplicate_options := by
    intro h
    apply hzero
    by_cases hs : PySequence_Check (given.getD PyObj.none) = true
    · simpa [hs] using h
    · simp [hs, num_strings]
  refine ⟨hothers, ?_, ?_, hnone, ?_⟩
  · intro L hseq hL hne
    apply hsome L _ hne
    simp [hseq, hL]
  · intro h
    apply hnoseq
    rcases h with h | h | h
    · subst h; rfl
    · subst h; rfl
    · exact h
  · intro hlen h0
    apply hnone
    cases hconv : E.PyObject_to_strings_max_len (given.getD PyObj.none)
        E.LIBPOSTAL_MAX_LANGUAGE_LEN with
    | none => rfl
    | some L =>
      have := hlen _ L hconv
      rw [h0] at this
      simpa [num_strings] using this

/-- C3, at a concrete call: `is_name_duplicate("a", "b", ["en"])` hands the
name comparator the default options with `languages` set to the one language
given. -/
theorem options_default_except_languages_witness :
    LibCall.duplicate duplicate_function.libpostal_is_name_duplicate "a" "b"
        ⟨1, some ["en"], 0⟩
      ∈ (py_is_duplicate demo_env [PyObj.str "a", PyObj.str "b", PyObj.list [PyObj.str "en"]] []
          duplicate_function.libpostal_is_name_duplicate).calls
    ∧ (⟨1, some ["en"], 0⟩ : libpostal_duplicate_options_t).others
        = demo_env.libpostal_get_default_duplicate_options.others
    ∧ (∀ L, PySequence_Check (PyObj.list [PyObj.str "en"]) = true →
        demo_env.PyObject_to_strings_max_len (PyObj.list [PyObj.str "en"])
          demo_env.LIBPOSTAL_MAX_LANGUAGE_LEN = some L →
        L ≠ [] →
        (⟨1, some ["en"], 0⟩ : libpostal_duplicate_options_t)
          = { demo_env.libpostal_get_default_duplicate_options with
              num_languages := L.length, languages := some L })
    ∧ ((some (PyObj.list [PyObj.str "en"]) = none
          ∨ some (PyObj.list [PyObj.str "en"]) = some PyObj.none
          ∨ PySequence_Check (PyObj.list [PyObj.str "en"]) = false) →
        (⟨1, some ["en"], 0⟩ : libpostal_duplicate_options_t)
          = demo_env.libpostal_get_default_duplicate_options)
    ∧ (num_strings (demo_env.PyObject_to_strings_max_len (PyObj.list [PyObj.str "en"])
          demo_env.LIBPOSTAL_MAX_LANGUAGE_LEN) = 0 →
        (⟨1, some ["en"], 0⟩ : libpostal_duplicate_options_t)
          = demo_env.libpostal_get_default_duplicate_options)
    ∧ ((∀ obj L, demo_env.PyObject_to_strings_max_len obj demo_env.LIBPOSTAL_MAX_LANGUAGE_LEN
            = some L →
          (L.length : Int) = PySequence_Length obj) →
        PySequence_Length (PyObj.list [PyObj.str "en"]) = 0 →
        (⟨1, some ["en"], 0⟩ : libpostal_duplicate_options_t)
          = demo_env.libpostal_get_default_duplicate_options) :=
  ⟨List.mem_singleton.mpr (by rfl),
  options_default_except_languages demo_env
    [PyObj.str "a", PyObj.str "b", PyObj.list [PyObj.str "en"]] []
    (py_is_duplicate demo_env [PyObj.str "a", PyObj.str "b", PyObj.list [PyObj.str "en"]] []
      duplicate_function.libpostal_is_name_duplicate)
    (some (PyObj.list [PyObj.str "en"]))
    (LibCall.duplicate duplicate_function.libpostal_is_name_duplicate "a" "b"
      ⟨1, some ["en"], 0⟩)
    ⟨1, some ["en"], 0⟩
    (Or.inl ⟨duplicate_function.libpostal_is_name_duplicate, PyObj.str "a", PyObj.str "b",
      by rfl, rfl⟩)
    (List.mem_singleton.mpr (by rfl)) rfl⟩

/-- In `is_toponym_duplicate`, a failed conversion of `labels1`, `values1` or
`values2` ends the call with NULL and no libpostal call. -/
theorem toponym_conversion_failure_aborts (E : Env) (args : List PyObj)
    (keywords : List (String × PyObj)) (arg_labels1 arg_values1 arg_labels2 arg_values2 : PyObj)
    (given : Option PyObj)
    (hparse : PyArg_ParseTupleAndKeywords args keywords 4
      ["labels1", "values1", "labels2", "values2", "languages"]
      = some [some arg_labels1, some arg_values1, some arg_labels2, some arg_values2, given])
    (hfail : E.PyObject_to_strings arg_labels1 = none ∨ E.PyObject_to_strings arg_values1 = none
      ∨ E.PyObject_to_strings arg_values2 = none) :
    (py_is_toponym_duplicate E args keywords).result = none
      ∧ (py_is_toponym_duplicate E args keywords).calls = [] := by
  simp only [py_is_toponym_duplicate, hparse]
  rcases hfail with h | h | h <;> simp only [h, Option.isNone_none, if_true] <;>
    (repeat' split) <;> simp [Run.null, Run.type_error]

/-- C4, what the code does when the conversion of `labels2` fails and the
other three succeed: the test of line 233 is on `labels1`, the call goes on,
libpostal is called with a NULL `labels2` and a count of 0 for the second
side, and its status is returned. -/
theorem toponym_called_after_failed_labels2 (E : Env) (args : List PyObj)
    (keywords : List (String × PyObj)) (arg_labels1 arg_values1 arg_labels2 arg_values2 : PyObj)
    (given : Option PyObj) (labels1 values1 values2 : List String)
    (hparse : PyArg_ParseTupleAndKeywords args keywords 4
      ["labels1", "values1", "labels2", "values2", "languages"]
      = some [some arg_labels1, some arg_values1, some arg_labels2, some arg_values2, given])
    (hs1 : PySequence_Check arg_labels1 = true) (hs2 : PySequence_Check arg_values1 = true)
    (hs3 : PySequence_Check arg_labels2 = true) (hs4 : PySequence_Check arg_values2 = true)
    (hlen1 : PySequence_Length arg_labels1 = PySequence_Length arg_values1)
    (hlen2 : PySequence_Length arg_labels2 = PySequence_Length arg_values2)
    (h1 : E.PyObject_to_strings arg_labels1 = some labels1)
    (h2 : E.PyObject_to_strings arg_values1 = some values1)
    (h3 : E.PyObject_to_strings arg_labels2 = none)
    (h4 : E.PyObject_to_strings arg_values2 = some values2) :
    ∃ options, py_is_toponym_duplicate E args keywords
      = ⟨[LibCall.toponym labels1.length (some labels1) (some values1) 0 none (some values2)
            options], none,
          some (PyObj.int (E.libpostal_is_toponym_duplicate labels1.length (some labels1)
            (some values1) 0 none (some values2) options))⟩ := by
  simp only [py_is_toponym_duplicate, hparse, hs1, hs2, hs3, hs4, hlen1, hlen2, h1, h2, h3, h4,
    num_strings, Bool.not_true, Bool.or_self, Bool.false_eq_true, if_false, ne_eq,
    not_true_eq_false, Option.isNone_some, Option.isNone_none]
  exact ⟨_, rfl⟩

/-- C4, at a concrete call: the second side's labels are a tuple holding
`None`, which does not convert; libpostal is called all the same. -/
theorem toponym_called_after_failed_labels2_witness :
    ∃ options, py_is_toponym_duplicate demo_env
        [PyObj.list [PyObj.str "city"], PyObj.list [PyObj.str "Paris"],
         PyObj.tuple [PyObj.none], PyObj.tuple [PyObj.str "Paris"]] []
      = ⟨[LibCall.toponym 1 (some ["city"]) (some ["Paris"]) 0 none (some ["Paris"]) options],
          none,
          some (PyObj.int (demo_env.libpostal_is_toponym_duplicate 1 (some ["city"])
            (some ["Paris"]) 0 none (some ["Paris"]) options))⟩ :=
  toponym_called_after_failed_labels2 demo_env _ []
    (PyObj.list [PyObj.str "city"]) (PyObj.list [PyObj.str "Paris"])
    (PyObj.tuple [PyObj.none]) (PyObj.tuple [PyObj.str "Paris"]) none
    ["city"] ["Paris"] ["Paris"] (by rfl) rfl rfl rfl rfl (by decide) (by decide) rfl rfl rfl rfl

/-- C10, at a call that passes the sequence and length checks: the labels of
the second side are a list holding an integer, whose conversion fails; libpostal
is called with `labels2` NULL and `num_components2` 0, against a `values2`
array of one string. -/
theorem toponym_call_with_null_labels2 :
    PySequence_Length (PyObj.list [PyObj.int 1])
        = PySequence_Length (PyObj.list [PyObj.str "Paris"])
      ∧ demo_env.PyObject_to_strings (PyObj.list [PyObj.int 1]) = none
      ∧ (py_is_toponym_duplicate demo_env
          [PyObj.list [PyObj.str "city"], PyObj.list [PyObj.str "Paris"],
           PyObj.list [PyObj.int 1], PyObj.list [PyObj.str "Paris"]] []).calls
        = [LibCall.toponym 1 (some ["city"]) (some ["Paris"]) 0 none (some ["Paris"])
            demo_options]
      ∧ (py_is_toponym_duplicate demo_env
          [PyObj.list [PyObj.str "city"], PyObj.list [PyObj.str "Paris"],
           PyObj.list [PyObj.int 1], PyObj.list [PyObj.str "Paris"]] []).result
        = some (PyObj.int 4) :=
  ⟨by decide, rfl, by rfl, by rfl⟩

/-- C5 as stated fails: for a pair of one label and one value that both
convert and that the classifier has no language for, `place_languages` returns
`None`, which is not a sequence. -/
theorem place_languages_unclassified_counterexample :
    demo_env.PyObject_to_strings (PyObj.list [PyObj.str "city"]) = some ["city"]
      ∧ demo_env.PyObject_to_strings (PyObj.list [PyObj.str "Atlantis"]) = some ["Atlantis"]
      ∧ demo_env.libpostal_place_languages 1 (some ["city"]) (some ["Atlantis"]) = none
      ∧ (py_place_languages demo_env
          [PyObj.list [PyObj.str "city"], PyObj.list [PyObj.str "Atlantis"]]).result
        = some PyObj.none
      ∧ PySequence_Check PyObj.none = false :=
  ⟨rfl, rfl, by decide, by rfl, rfl⟩

/-- C5 amended: for every pair of labels and values that both convert, when
`libpostal_place_languages` hands back no languages (NULL), `place_languages`
returns `None`, with no exception set, after the one classifier call. -/
theorem place_languages_unclassified_returns_none (E : Env) (arg_labels arg_values : PyObj)
    (labels values : List String)
    (hlabels : E.PyObject_to_strings arg_labels = some labels)
    (hvalues : E.PyObject_to_strings arg_values = some values)
    (hnone : E.libpostal_place_languages labels.length (some labels) (some values) = none) :
    py_place_languages E [arg_labels, arg_values]
      = ⟨[LibCall.place_languages labels.length (some labels) (some values)], none,
          some PyObj.none⟩ := by
  simp [py_place_languages, PyArg_ParseTuple, hlabels, hvalues, hnone, num_strings]

/-- C5 amended, at a concrete call. -/
theorem place_languages_unclassified_returns_none_witness :
    py_place_languages demo_env
        [PyObj.list [PyObj.str "city"], PyObj.list [PyObj.str "Atlantis"]]
      = ⟨[LibCall.place_languages 1 (some ["city"]) (some ["Atlantis"])], none,
          some PyObj.none⟩ :=
  place_languages_unclassified_returns_none demo_env (PyObj.list [PyObj.str "city"])
    (PyObj.list [PyObj.str "Atlantis"]) ["city"] ["Atlantis"] rfl rfl (by decide)

/-- C6, what the code does when the counts differ: `place_languages` compares
no lengths; as soon as both arguments convert, the classifier is called once,
with the number of labels as component count and a values array of another
length, and no exception is set. -/
theorem place_languages_called_on_count_mismatch (E : Env) (arg_labels arg_values : PyObj)
    (labels values : List String)
    (hlabels : E.PyObject_to_strings arg_labels = some labels)
    (hvalues : E.PyObject_to_strings arg_values = some values)
    (hdiff : labels.length ≠ values.length) :
    (py_place_languages E [arg_labels, arg_values]).raised = none
      ∧ ∃ num_components passed_values,
        (py_place_languages E [arg_labels, arg_values]).calls
          = [LibCall.place_languages num_components (some labels) (some passed_values)]
        ∧ num_components = labels.length
        ∧ num_components ≠ passed_values.length := by
  refine ⟨?_, labels.length, values, ?_, rfl, hdiff⟩ <;>
    simp [py_place_languages, PyArg_ParseTuple, hlabels, hvalues, num_strings]

/-- C6, at a concrete call: two labels and one value; the classifier is called
with a component count of 2 and a values array of one string. -/
theorem place_languages_called_on_count_mismatch_witness :
    (py_place_languages demo_env
        [PyObj.list [PyObj.str "road", PyObj.str "city"],
         PyObj.list [PyObj.str "Main St"]]).raised = none
      ∧ ∃ num_components passed_values,
        (py_place_languages demo_env
          [PyObj.list [PyObj.str "road", PyObj.str "city"],
           PyObj.list [PyObj.str "Main St"]]).calls
          = [LibCall.place_languages num_components (some ["road", "city"])
              (some passed_values)]
        ∧ num_components = ["road", "city"].length
        ∧ num_components ≠ passed_values.length :=
  place_languages_called_on_count_mismatch demo_env
    (PyObj.list [PyObj.str "road", PyObj.str "city"]) (PyObj.list [PyObj.str "Main St"])
    ["road", "city"] ["Main St"] rfl rfl (by decide)

/-- The two earlier failures of the initialisation do end it: without a module
object or without the exception object, it returns `INITERROR`. -/
theorem init_error_without_module_or_exception (E : Env)
    (h : E.PyModule_Create_ok = false ∨ E.PyErr_NewException_ok = false) :
    (PyInit__dedupe E).module = none := by
  unfold PyInit__dedupe
  rcases h with h | h
  · simp [h]
  · by_cases hm : E.PyModule_Create_ok = true <;> simp [h, hm]

/-- The constants a returned module carries are the five macros of
`libpostal.h`, under the five exported names, in the order of lines 360-364. -/
theorem init_exports_status_macros (E : Env) (m : Module)
    (hm : (PyInit__dedupe E).module = some m) :
    m.constants
      = [ ("NULL_DUPLICATE_STATUS", E.LIBPOSTAL_NULL_DUPLICATE_STATUS),
          ("NON_DUPLICATE", E.LIBPOSTAL_NON_DUPLICATE),
          ("POSSIBLE_DUPLICATE_NEEDS_REVIEW", E.LIBPOSTAL_POSSIBLE_DUPLICATE_NEEDS_REVIEW),
          ("LIKELY_DUPLICATE", E.LIBPOSTAL_LIKELY_DUPLICATE),
          ("EXACT_DUPLICATE", E.LIBPOSTAL_EXACT_DUPLICATE) ] := by
  unfold PyInit__dedupe at hm
  split at hm
  · simp at hm
  · split at hm
    · simp at hm
    · simp only [Option.some.injEq] at hm
      subst hm
      rfl

end PyDedupe
